import Mathlib

/-!
# Verification of the MQT Bench core against its specification

This file gives a shallow embedding of the core of the `mqt-bench` repository
(benchmark level generation, the custom Solovay-Kitaev pass, the IonQ gateset
algebra and the IonQ device target builder) and proves, or refutes, the frozen
claims about it.

Conventions of the embedding:

* A quantum circuit is a named, ordered list of operations over a fixed number
  of qubits (`Circuit`).  Gate parameters are modelled as rationals where the
  pipeline only passes them around, and as reals where the gate algebra's
  actual matrices are concerned (`IonQGates` below).
* Python functions that can raise become `Except String _`; a raised
  `ValueError` is an `Except.error`.
* The external qiskit collaborators (the transpiler core, the pass managers,
  the Solovay-Kitaev synthesis core, the file system and the benchmark
  constructors) are abstracted as fields of a `Qiskit` environment record and
  universally quantified in the theorems.  The one piece of documented
  behaviour of qiskit itself that the claims depend on is that
  `qiskit.compiler.transpile` validates `optimization_level ∈ [0, 3]` and
  raises `ValueError` otherwise; `Qiskit.transpile` wraps the abstract core in
  exactly that validation.
* Floating point literals of the source are modelled as rationals (for the
  device calibration constants) or reals (for the gate matrices).
-/

namespace MQTBench

/-- A single circuit operation: a (possibly parametrised) gate on some qubits,
a barrier, or a measurement of qubit `q` into classical bit `c`. -/
inductive Op where
  | gate (name : String) (params : List ℚ) (qubits : List Nat)
  | barrier
  | measure (q : Nat) (c : Nat)
  deriving DecidableEq, Repr

/-- Is the operation a measurement? -/
def Op.isMeasure : Op → Bool
  | .measure _ _ => true
  | _ => false

/-- Is the operation a barrier? -/
def Op.isBarrier : Op → Bool
  | .barrier => true
  | _ => false

/-- A non-barrier, non-measurement operation. -/
def Op.isUnitary (o : Op) : Bool := !o.isMeasure && !o.isBarrier

/-- A quantum circuit: a name, a number of qubits and an ordered operation
list (`QuantumCircuit.data` in qiskit). -/
structure Circuit where
  name : String
  numQubits : Nat
  ops : List Op
  deriving DecidableEq, Repr

/-- `QuantumCircuit.remove_final_measurements`: drop the maximal trailing
block of measurement operations. -/
def Circuit.remove_final_measurements (c : Circuit) : Circuit :=
  { c with ops := (c.ops.reverse.dropWhile Op.isMeasure).reverse }

/-- `QuantumCircuit.measure_all`: append a barrier and a measurement of every
qubit into a fresh classical bit of the same index. -/
def Circuit.measure_all (c : Circuit) : Circuit :=
  { c with ops := c.ops ++ [Op.barrier] ++ (List.range c.numQubits).map (fun q => Op.measure q q) }

/-- A compilation target as the pipeline sees it: a textual description used
for dispatch and a list of basis gate names. -/
structure Target where
  description : String
  basisGates : List String
  deriving DecidableEq, Repr

/-- The result of a level-generation function: either the circuit itself
(`return_qc = True`) or the boolean status of the save/precheck path. -/
inductive Output where
  | circuit (qc : Circuit)
  | flag (b : Bool)
  deriving DecidableEq, Repr

/-- The external collaborators of the core (qiskit and the file system),
abstracted as an environment record and universally quantified in theorems. -/
structure Qiskit where
  /-- the transpiler proper, reached only with a valid optimization level -/
  transpileCore : Circuit → Option Target → Int → Nat → Circuit
  /-- `PassManager(SolovayKitaev()).run` -/
  solovayKitaev : Circuit → Circuit
  /-- `level_i_pass_manager(PassManagerConfig(target, routing_method="", layout_method="")).run` -/
  levelPassManager : Int → Target → Circuit → Circuit
  /-- the persistence collaborator `save_circuit` -/
  saveCircuit : Circuit → String → Bool
  /-- `Path.is_file` -/
  fileIsFile : String → Bool
  /-- the benchmark constructor collaborator `lib.create_circuit` (the extra
  string carries the ancillary mode or the shor instance name) -/
  createCircuit : String → Option Int → Option String → Circuit

/-- `qiskit.compiler.transpile(qc, target=..., optimization_level=...,
seed_transpiler=...)`.  qiskit validates the optimization level and raises
`ValueError` when it is outside `[0, 3]`; the work itself is the abstract
`transpileCore`. -/
def Qiskit.transpile (env : Qiskit) (qc : Circuit) (target : Option Target)
    (optimization_level : Int) (seed_transpiler : Nat) : Except String Circuit :=
  if 0 ≤ optimization_level ∧ optimization_level ≤ 3 then
    .ok (env.transpileCore qc target optimization_level seed_transpiler)
  else
    .error "Invalid optimization level"

/-- `clifford_t.get_clifford_t_gateset`. -/
def get_clifford_t_gateset : List String :=
  ["id", "x", "y", "z", "h", "s", "sdg", "t", "tdg", "sx", "sxdg",
   "cx", "cy", "cz", "swap", "iswap", "dcx", "ecr"]

/-- `clifford_t.get_clifford_t_rotations_gateset`. -/
def get_clifford_t_rotations_gateset : List String :=
  get_clifford_t_gateset ++ ["rx", "ry", "rz"]

/-- Modelled from the spec: `get_native_gateset_by_name` is imported by
`benchmark_generation.py` but its definition is not under `src/`.  Per the
spec (§4.1, §4.4) it resolves a gateset name to a synthetic target whose
description equals the gateset name and whose operations are the catalog's
list for that name; the two Clifford+T entries are the ones the claims use
and their gate lists are taken from `clifford_t.py`. -/
def get_native_gateset_by_name (name : String) : Target :=
  if name = "clifford+t" then ⟨name, get_clifford_t_gateset⟩
  else if name = "clifford+t+rotations" then ⟨name, get_clifford_t_rotations_gateset⟩
  else ⟨name, []⟩

instance {e a : Type} [DecidableEq e] [DecidableEq a] : DecidableEq (Except e a) := fun x y =>
  match x, y with
  | .error u, .error v => decidable_of_iff (u = v) (by simp)
  | .ok u, .ok v => decidable_of_iff (u = v) (by simp)
  | .error _, .ok _ => isFalse (by simp)
  | .ok _, .error _ => isFalse (by simp)

/-- `QiskitSettings` (`optimization_level: int = 1`). -/
structure QiskitSettings where
  optimization_level : Int := 1
  deriving DecidableEq, Repr

/-- `CompilerSettings` (`qiskit: QiskitSettings | None = None`). -/
structure CompilerSettings where
  qiskit : Option QiskitSettings := none
  deriving DecidableEq, Repr

/-- Render `num_qubits: int | None` the way a python f-string does. -/
def optIntStr : Option Int → String
  | some n => toString n
  | none => "None"

/-- `generate_filename`. -/
def generate_filename (benchmark_name level : String) (num_qubits : Option Int)
    (target : Option Target := none) (opt_level : Option Int := none) : String :=
  let base := benchmark_name ++ "_" ++ level
  let description := match target with
    | some t => (t.description.trim.splitOn " ").headD ""
    | none => ""
  if level = "nativegates" ∧ opt_level.isSome then
    base ++ "_" ++ description ++ "_opt" ++ optIntStr opt_level ++ "_" ++ optIntStr num_qubits
  else if level = "mapped" ∧ opt_level.isSome then
    base ++ "_" ++ description ++ "_opt" ++ optIntStr opt_level ++ "_" ++ optIntStr num_qubits
  else
    base ++ "_" ++ optIntStr num_qubits

/-- `get_alg_level` (output format fixed to the default `OutputFormat.QASM3`,
whose file extension is `qasm`). -/
def get_alg_level (env : Qiskit) (qc : Circuit) (num_qubits : Option Int)
    (file_precheck : Bool) (return_qc : Bool := false)
    (target_directory : String := "./") (target_filename : String := "") :
    Except String Output :=
  if return_qc then .ok (.circuit qc)
  else
    let filename_alg :=
      if target_filename ≠ "" then target_filename
      else generate_filename qc.name "alg" num_qubits
    let path := target_directory ++ "/" ++ filename_alg ++ ".qasm"
    if file_precheck && env.fileIsFile path then .ok (.flag true)
    else .ok (.flag (env.saveCircuit qc filename_alg))

/-- `get_indep_level` (output format fixed to the default QASM3). -/
def get_indep_level (env : Qiskit) (qc : Circuit) (num_qubits : Option Int)
    (file_precheck : Bool) (return_qc : Bool := false)
    (target_directory : String := "./") (target_filename : String := "") :
    Except String Output :=
  let filename_indep :=
    if target_filename ≠ "" then target_filename
    else generate_filename qc.name "indep" num_qubits
  let path := target_directory ++ "/" ++ filename_indep ++ ".qasm"
  if file_precheck && env.fileIsFile path then .ok (.flag true)
  else if return_qc then .ok (.circuit qc)
  else .ok (.flag (env.saveCircuit qc filename_indep))

/-- `get_native_gates_level` (output format fixed to the default QASM3). -/
def get_native_gates_level (env : Qiskit) (qc : Circuit) (target : Target)
    (num_qubits : Option Int) (opt_level : Int) (file_precheck : Bool)
    (return_qc : Bool := false) (target_directory : String := "./")
    (target_filename : String := "") : Except String Output := do
  let filename_native :=
    if target_filename ≠ "" then target_filename
    else generate_filename qc.name "native" num_qubits (some target) (some opt_level)
  let path := target_directory ++ "/" ++ filename_native ++ ".qasm"
  if file_precheck && env.fileIsFile path then return .flag true
  let qc ←
    if target.description = "clifford+t" then do
      let clifford_t_rotations := get_native_gateset_by_name "clifford+t+rotations"
      let compiled_for_sk ← env.transpile qc (some clifford_t_rotations) opt_level 10
      let qc := env.solovayKitaev compiled_for_sk.remove_final_measurements
      pure qc.measure_all
    else pure qc
  let pm ←
    if opt_level = 0 then pure (env.levelPassManager 0 target)
    else if opt_level = 1 then pure (env.levelPassManager 1 target)
    else if opt_level = 2 then pure (env.levelPassManager 2 target)
    else if opt_level = 3 then pure (env.levelPassManager 3 target)
    else throw "Unsupported optimization level"
  let compiled := pm qc
  if return_qc then return .circuit compiled
  return .flag (env.saveCircuit compiled filename_native)

/-- `get_mapped_level` (output format fixed to the default QASM3). -/
def get_mapped_level (env : Qiskit) (qc : Circuit) (num_qubits : Option Int)
    (device : Option Target) (opt_level : Int) (file_precheck : Bool)
    (return_qc : Bool := false) (target_directory : String := "./")
    (target_filename : String := "") : Except String Output := do
  let filename_mapped :=
    if target_filename ≠ "" then target_filename
    else generate_filename qc.name "mapped" num_qubits device (some opt_level)
  let path := target_directory ++ "/" ++ filename_mapped ++ ".qasm"
  if file_precheck && env.fileIsFile path then return .flag true
  let compiled ← env.transpile qc device opt_level 10
  if return_qc then return .circuit compiled
  return .flag (env.saveCircuit compiled filename_mapped)

/-- `get_supported_benchmarks`. -/
def get_supported_benchmarks : List String :=
  ["ae", "bv", "dj", "grover-noancilla", "grover-v-chain", "ghz", "graphstate",
   "qaoa", "qft", "qftentangled", "qnn", "qpeexact", "qpeinexact",
   "qwalk-noancilla", "qwalk-v-chain", "randomcircuit", "vqerealamprandom",
   "vqesu2random", "vqetwolocalrandom", "wstate", "shor"]

/-- A benchmark level argument: `level: str | int`. -/
inductive BLevel where
  | str (s : String)
  | num (n : Int)
  deriving DecidableEq, Repr

/-- `get_supported_levels`. -/
def get_supported_levels : List BLevel :=
  [.str "alg", .str "indep", .str "nativegates", .str "mapped",
   .num 0, .num 1, .num 2, .num 3]

/-- Does `sub` occur (contiguously) somewhere in the character list? -/
def pyContainsAux (sub : List Char) : List Char → Bool
  | [] => sub.isPrefixOf []
  | c :: tl => sub.isPrefixOf (c :: tl) || pyContainsAux sub tl

/-- Python's substring test `sub in s`. -/
def pyContains (s sub : String) : Bool := pyContainsAux sub.data s.data

/-- `get_benchmark`.  The benchmark construction itself is the external
`createCircuit` collaborator; everything else follows the source. -/
def get_benchmark (env : Qiskit) (benchmark_name : String) (level : BLevel)
    (circuit_size : Option Int := none) (benchmark_instance_name : Option String := none)
    (compiler_settings : Option CompilerSettings := none)
    (target : Option Target := none) : Except String Output := do
  if !(get_supported_benchmarks.contains benchmark_name) then
    throw "Selected benchmark is not supported."
  if !(get_supported_levels.contains level) then
    throw "Selected level must be supported."
  if benchmark_name != "shor"
      && !(match circuit_size with | some n => decide (0 < n) | none => false) then
    throw "circuit_size must be None or int for this benchmark."
  if benchmark_name == "shor" && benchmark_instance_name.isNone then
    throw "benchmark_instance_name must be defined for this benchmark."
  let qc ←
    if pyContains benchmark_name "grover" || pyContains benchmark_name "qwalk" then
      if pyContains benchmark_name "noancilla" then
        pure (env.createCircuit benchmark_name circuit_size (some "noancilla"))
      else if pyContains benchmark_name "v-chain" then
        pure (env.createCircuit benchmark_name circuit_size (some "v-chain"))
      else
        throw "Either noancilla or v-chain must be specified for ancillary mode of Grover and QWalk benchmarks."
    else if benchmark_name == "shor" then
      pure (env.createCircuit benchmark_name none benchmark_instance_name)
    else
      pure (env.createCircuit benchmark_name circuit_size none)
  if level == .str "alg" || level == .num 0 then return .circuit qc
  let compiler_settings := match compiler_settings with
    | none => CompilerSettings.mk (some {})
    | some s => s
  if level == .str "indep" || level == .num 1 then
    return (← get_indep_level env qc circuit_size false true)
  if level == .str "nativegates" || level == .num 2 then
    match compiler_settings.qiskit with
    | none => throw "assert compiler_settings.qiskit is not None"
    | some qs =>
      match target with
      | none => throw "target is None"
      | some t =>
        return (← get_native_gates_level env qc t circuit_size qs.optimization_level false true)
  if level == .str "mapped" || level == .num 3 then
    match compiler_settings.qiskit with
    | none => throw "assert compiler_settings.qiskit is not None"
    | some qs =>
      return (← get_mapped_level env qc circuit_size target qs.optimization_level false true)
  throw "Invalid level specified."

/-- Modelled from the spec (§4.5, INDEP): run the generic compiler's full
optimization at the caller-chosen optimization level with the fixed seed 10
and return the optimized circuit.  This is the spec's description of the
INDEP transition, stated for comparison with the source's `get_indep_level`. -/
def get_indep_level_spec (optimize : Circuit → Int → Nat → Circuit)
    (opt_level : Int) (qc : Circuit) : Circuit :=
  optimize qc opt_level 10

/-- A concrete environment for witnesses: every collaborator is trivial and
every file exists. -/
def envT : Qiskit where
  transpileCore := fun qc _ _ _ => qc
  solovayKitaev := id
  levelPassManager := fun _ _ qc => qc
  saveCircuit := fun _ _ => true
  fileIsFile := fun _ => true
  createCircuit := fun n _ _ => ⟨n, 0, []⟩

/-- A concrete two-qubit circuit used by counterexamples. -/
def qcT : Circuit := ⟨"ghz", 2, [.gate "h" [] [0], .gate "cx" [] [0, 1]]⟩

/-- C1 counterexample: `get_indep_level` hands back the input circuit
unchanged, while the spec's INDEP transition applied to the same input under
an optimizer that does change the circuit returns something else.  So the
returned circuit is the unmodified input, not the optimized circuit, and no
optimization pass (at any level, with any seed) is applied. -/
theorem indep_level_is_not_optimized_cex :
    get_indep_level envT qcT (some 2) false true = .ok (.circuit qcT) ∧
    get_indep_level_spec (fun _ _ _ => ⟨"ghz", 2, []⟩) 2 qcT ≠ qcT := by
  exact ⟨rfl, by decide⟩

/-- C1 (amended): generating the INDEP level applies no optimization pass at
all: for every environment (in particular, whatever the generic compiler's
optimization does), `get_indep_level` with `return_qc = True` and no
file-precheck hit returns the input circuit unchanged; it takes neither an
optimization level nor a seed. -/
theorem indep_level_returns_input_unchanged (env : Qiskit) (qc : Circuit)
    (num_qubits : Option Int) (dir fn : String) :
    get_indep_level env qc num_qubits false true dir fn = .ok (.circuit qc) := by
  simp [get_indep_level]

/-- C4: for a target whose description is the discrete universal family
`"clifford+t"`, `get_native_gates_level` (with a valid optimization level)
first transpiles to the rotations-augmented `"clifford+t+rotations"` gateset
(seed 10), then removes the final measurements, then runs the Solovay-Kitaev
synthesis pass, then reattaches a terminal measurement of all qubits — in
exactly that order — before the level pass manager produces the result.
Moreover the rotations-augmented gateset is the clifford+t gateset extended
by `rx`, `ry`, `rz`. -/
theorem native_gates_clifford_t_pipeline_order (env : Qiskit) (qc : Circuit)
    (t : Target) (num_qubits : Option Int) (opt_level : Int) (dir fn : String)
    (hdesc : t.description = "clifford+t")
    (hopt : opt_level = 0 ∨ opt_level = 1 ∨ opt_level = 2 ∨ opt_level = 3) :
    get_native_gates_level env qc t num_qubits opt_level false true dir fn =
      .ok (.circuit (env.levelPassManager opt_level t
        (Circuit.measure_all (env.solovayKitaev
          (Circuit.remove_final_measurements
            (env.transpileCore qc (some (get_native_gateset_by_name "clifford+t+rotations"))
              opt_level 10)))))) ∧
    get_clifford_t_rotations_gateset = get_clifford_t_gateset ++ ["rx", "ry", "rz"] := by
  refine ⟨?_, rfl⟩
  rcases hopt with h | h | h | h <;> subst h <;>
    simp [get_native_gates_level, hdesc, Qiskit.transpile, Bind.bind, Except.bind,
      Pure.pure, Except.pure]

/-- C4 witness: the pipeline order theorem applied to the trivial environment
at optimization level 2. -/
theorem native_gates_clifford_t_pipeline_order_witness :
    (⟨"clifford+t", get_clifford_t_gateset⟩ : Target).description = "clifford+t" ∧
    get_native_gates_level envT qcT ⟨"clifford+t", get_clifford_t_gateset⟩ (some 2) 2 false true "./" "" =
      .ok (.circuit (envT.levelPassManager 2 ⟨"clifford+t", get_clifford_t_gateset⟩
        (Circuit.measure_all (envT.solovayKitaev
          (Circuit.remove_final_measurements
            (envT.transpileCore qcT (some (get_native_gateset_by_name "clifford+t+rotations")) 2 10)))))) :=
  ⟨rfl, (native_gates_clifford_t_pipeline_order envT qcT ⟨"clifford+t", get_clifford_t_gateset⟩
    (some 2) 2 "./" "" rfl (by decide)).1⟩

/-- C7: for every optimization level outside [0, 3], requesting the
NATIVEGATES or the MAPPED level raises a `ValueError` and no circuit is
produced (for NATIVEGATES the error comes either from the explicit
pass-manager validation or, on the clifford+t path, from the transpile call;
for MAPPED it comes from the transpile call). -/
theorem invalid_opt_level_raises (env : Qiskit) (qc : Circuit) (t : Target)
    (device : Option Target) (num_qubits : Option Int) (opt_level : Int)
    (return_qc : Bool) (dir fn : String)
    (h : opt_level < 0 ∨ 3 < opt_level) :
    (∃ e, get_native_gates_level env qc t num_qubits opt_level false return_qc dir fn =
      .error e) ∧
    (∃ e, get_mapped_level env qc num_qubits device opt_level false return_qc dir fn =
      .error e) := by
  constructor
  · by_cases hd : t.description = "clifford+t"
    · refine ⟨"Invalid optimization level", ?_⟩
      have hv : ¬ (0 ≤ opt_level ∧ opt_level ≤ 3) := by omega
      simp [get_native_gates_level, hd, Qiskit.transpile, hv, Bind.bind, Except.bind,
        Pure.pure, Except.pure]
    · refine ⟨"Unsupported optimization level", ?_⟩
      have h0 : opt_level ≠ 0 := by omega
      have h1 : opt_level ≠ 1 := by omega
      have h2 : opt_level ≠ 2 := by omega
      have h3 : opt_level ≠ 3 := by omega
      simp [get_native_gates_level, hd, h0, h1, h2, h3, Bind.bind, Except.bind,
        throw, throwThe, MonadExceptOf.throw, Pure.pure, Except.pure]
  · refine ⟨"Invalid optimization level", ?_⟩
    have hv : ¬ (0 ≤ opt_level ∧ opt_level ≤ 3) := by omega
    simp [get_mapped_level, Qiskit.transpile, hv, Bind.bind, Except.bind,
      Pure.pure, Except.pure]

/-- C7 witness: the validation theorem applied at the concrete levels 4 and
-1 cited by the spec. -/
theorem invalid_opt_level_raises_witness :
    (((4 : Int) < 0 ∨ 3 < (4 : Int)) ∧
      ((∃ e, get_native_gates_level envT qcT ⟨"ibm_falcon", []⟩ (some 2) 4 false true "./" "" = .error e) ∧
       (∃ e, get_mapped_level envT qcT (some 2) none 4 false true "./" "" = .error e))) ∧
    (((-1 : Int) < 0 ∨ 3 < (-1 : Int)) ∧
      ((∃ e, get_native_gates_level envT qcT ⟨"clifford+t", []⟩ (some 2) (-1) false true "./" "" = .error e) ∧
       (∃ e, get_mapped_level envT qcT (some 2) none (-1) false true "./" "" = .error e))) :=
  ⟨⟨by decide, invalid_opt_level_raises envT qcT ⟨"ibm_falcon", []⟩ none (some 2) 4 true "./" "" (by decide)⟩,
   ⟨by decide, invalid_opt_level_raises envT qcT ⟨"clifford+t", []⟩ none (some 2) (-1) true "./" "" (by decide)⟩⟩

/-- An environment whose pass managers tag the produced circuit with the
optimization level they were selected for, to observe which level ran. -/
def env8 : Qiskit where
  transpileCore := fun qc _ _ _ => qc
  solovayKitaev := id
  levelPassManager := fun lvl _ _ => ⟨"opt", lvl.toNat, []⟩
  saveCircuit := fun _ _ => true
  fileIsFile := fun _ => false
  createCircuit := fun n _ _ => ⟨n, 3, []⟩

/-- C8 counterexample: with no compiler settings supplied, `get_benchmark` at
the NATIVEGATES level runs the level-1 pass manager, not the level-2 one:
the default optimization level is 1 (from `QiskitSettings`), not 2. -/
theorem default_opt_level_two_cex :
    get_benchmark env8 "dj" (.str "nativegates") (some 3) none none
        (some ⟨"ibm_falcon", ["id", "x", "sx", "rz", "cx"]⟩) =
      .ok (.circuit ⟨"opt", 1, []⟩) ∧
    ({} : QiskitSettings).optimization_level ≠ 2 := by
  exact ⟨by decide, by decide⟩

/-- C8 (amended): when the caller does not specify compiler settings,
`get_benchmark` uses optimization level 1 as the default (the
`QiskitSettings` default), for every level: omitting the settings is
observably identical to passing `CompilerSettings(QiskitSettings(1))`. -/
theorem default_opt_level_is_one :
    ({} : QiskitSettings).optimization_level = 1 ∧
    ∀ (env : Qiskit) (bn : String) (lvl : BLevel) (sz : Option Int)
      (bin : Option String) (t : Option Target),
      get_benchmark env bn lvl sz bin none t =
        get_benchmark env bn lvl sz bin (some ⟨some ⟨1⟩⟩) t :=
  ⟨rfl, fun _ _ _ _ _ _ => rfl⟩

/-- C9: in `get_indep_level` and `get_native_gates_level` the file-existence
precheck is performed before the `return_qc` branch, so with
`file_precheck = True`, `return_qc = True` and the output file present, both
return the boolean `True` instead of a circuit. -/
theorem file_precheck_before_return_qc (env : Qiskit) (qc : Circuit)
    (t : Target) (num_qubits : Option Int) (opt_level : Int) (dir fn : String)
    (hfn : fn ≠ "")
    (hfile : env.fileIsFile (dir ++ "/" ++ fn ++ ".qasm") = true) :
    get_indep_level env qc num_qubits true true dir fn = .ok (.flag true) ∧
    get_native_gates_level env qc t num_qubits opt_level true true dir fn = .ok (.flag true) := by
  constructor
  · simp [get_indep_level, hfn, hfile]
  · simp [get_native_gates_level, hfn, hfile, Bind.bind, Except.bind, Pure.pure, Except.pure]

/-- C9 witness: the precheck theorem applied in the all-files-exist
environment with a concrete filename. -/
theorem file_precheck_before_return_qc_witness :
    ("f" ≠ "" ∧ envT.fileIsFile ("./" ++ "/" ++ "f" ++ ".qasm") = true) ∧
    get_indep_level envT qcT (some 2) true true "./" "f" = .ok (.flag true) ∧
    get_native_gates_level envT qcT ⟨"ibm_falcon", []⟩ (some 2) 2 true true "./" "f" =
      .ok (.flag true) :=
  ⟨⟨by decide, rfl⟩,
   file_precheck_before_return_qc envT qcT ⟨"ibm_falcon", []⟩ (some 2) 2 "./" "f"
     (by decide) rfl⟩

/-- C10: `get_benchmark` treats the numeric levels 0, 1, 2, 3 exactly as the
string levels "alg", "indep", "nativegates", "mapped" respectively, for every
benchmark name and argument combination. -/
theorem numeric_and_string_levels_agree (env : Qiskit) (bn : String)
    (sz : Option Int) (bin : Option String) (cs : Option CompilerSettings)
    (t : Option Target) :
    get_benchmark env bn (.num 0) sz bin cs t = get_benchmark env bn (.str "alg") sz bin cs t ∧
    get_benchmark env bn (.num 1) sz bin cs t = get_benchmark env bn (.str "indep") sz bin cs t ∧
    get_benchmark env bn (.num 2) sz bin cs t = get_benchmark env bn (.str "nativegates") sz bin cs t ∧
    get_benchmark env bn (.num 3) sz bin cs t = get_benchmark env bn (.str "mapped") sz bin cs t :=
  ⟨rfl, rfl, rfl, rfl⟩

/-! ## The custom Solovay-Kitaev pass (`custom_solovay_kitaev.py`) -/

/-- An operation node of a qiskit `DAGCircuit`, with the three attributes the
pass inspects: `node.op.num_qubits`, `node.is_parameterized()` and whether
`node.op` has a `to_matrix` attribute. -/
structure DAGNode where
  name : String
  numQubits : Nat
  isParameterized : Bool
  hasToMatrix : Bool
  deriving DecidableEq, Repr

/-- The pass's skip condition: `(node.op.num_qubits != 1) or
node.is_parameterized() or (not hasattr(node.op, "to_matrix"))`. -/
def skExcluded (n : DAGNode) : Bool :=
  n.numQubits != 1 || n.isParameterized || !n.hasToMatrix

/-- `CustomSolovayKitaev.run`: visit each op node in order; nodes matching
the skip condition are left alone (`continue`), each other node is replaced
in place by its approximation (`self._sk.run` on the node's matrix, then
`dag.substitute_node_with_dag`), here abstracted as `approx`. -/
def customSolovayKitaevRun (approx : DAGNode → List DAGNode) :
    List DAGNode → List DAGNode
  | [] => []
  | n :: rest =>
    if skExcluded n then n :: customSolovayKitaevRun approx rest
    else approx n ++ customSolovayKitaevRun approx rest

/-- C5: the pass leaves every multi-qubit, parameterized or matrix-less node
unchanged in place, and substitutes exactly the remaining nodes by their
approximations: the output is the input with each non-excluded node replaced
by `approx` of it, and every excluded input node still occurs in the
output. -/
theorem sk_run_leaves_excluded_nodes_unchanged (approx : DAGNode → List DAGNode)
    (dag : List DAGNode) :
    customSolovayKitaevRun approx dag =
      dag.flatMap (fun n => if skExcluded n then [n] else approx n) ∧
    ∀ n ∈ dag, skExcluded n → n ∈ customSolovayKitaevRun approx dag := by
  have hflat : customSolovayKitaevRun approx dag =
      dag.flatMap (fun n => if skExcluded n then [n] else approx n) := by
    induction dag with
    | nil => rfl
    | cons n rest ih =>
      by_cases h : skExcluded n <;>
        simp [customSolovayKitaevRun, h, ih]
  refine ⟨hflat, fun n hn hexc => ?_⟩
  rw [hflat]
  exact List.mem_flatMap.mpr ⟨n, hn, by simp [hexc]⟩

/-- C5 witness: a two-qubit node and a parameterized node survive a run that
rewrites the one eligible node. -/
theorem sk_run_leaves_excluded_nodes_unchanged_witness :
    (customSolovayKitaevRun
        (fun _ => [⟨"h", 1, false, true⟩, ⟨"t", 1, false, true⟩])
        [⟨"cx", 2, false, true⟩, ⟨"rx", 1, true, true⟩, ⟨"u", 1, false, true⟩] =
      [⟨"cx", 2, false, true⟩, ⟨"rx", 1, true, true⟩,
       ⟨"h", 1, false, true⟩, ⟨"t", 1, false, true⟩]) ∧
    (⟨"cx", 2, false, true⟩ : DAGNode) ∈
      [(⟨"cx", 2, false, true⟩ : DAGNode), ⟨"rx", 1, true, true⟩, ⟨"u", 1, false, true⟩] ∧
    skExcluded ⟨"cx", 2, false, true⟩ = true ∧
    (⟨"cx", 2, false, true⟩ : DAGNode) ∈
      customSolovayKitaevRun (fun _ => [⟨"h", 1, false, true⟩, ⟨"t", 1, false, true⟩])
        [⟨"cx", 2, false, true⟩, ⟨"rx", 1, true, true⟩, ⟨"u", 1, false, true⟩] :=
  ⟨by decide, by decide, by decide,
   (sk_run_leaves_excluded_nodes_unchanged
      (fun _ => [⟨"h", 1, false, true⟩, ⟨"t", 1, false, true⟩])
      [⟨"cx", 2, false, true⟩, ⟨"rx", 1, true, true⟩, ⟨"u", 1, false, true⟩]).2
    ⟨"cx", 2, false, true⟩ (by decide) (by decide)⟩

/-! ## The mirror transform

The mirror-circuit generator (`--generate-mirror-circuit`) is exercised by
`tests/test_cli.py` but its implementation is not under `src/`, so it is
modelled from the spec (§4.6). -/

/-- Modelled from the spec: "invert each operation" — the structural inverse
of a single operation.  Self-inverse standard gates stay themselves, rotation
angles are negated, `s`/`t` swap with their adjoints, anything else is tagged
as an adjoint; barriers and measurements are structurally unchanged. -/
def invOp : Op → Op
  | .gate n ps qs =>
    if n = "h" || n = "x" || n = "y" || n = "z" || n = "cx" || n = "cy" || n = "cz"
        || n = "swap" || n = "id" || n = "ccx" then
      .gate n ps qs
    else if n = "rx" || n = "ry" || n = "rz" || n = "p" || n = "rxx" || n = "rzz" then
      .gate n (ps.map Neg.neg) qs
    else if n = "s" then .gate "sdg" ps qs
    else if n = "sdg" then .gate "s" ps qs
    else if n = "t" then .gate "tdg" ps qs
    else if n = "tdg" then .gate "t" ps qs
    else .gate (n ++ "_dg") ps qs
  | .barrier => .barrier
  | .measure q c => .measure q c

/-- The terminal measurements of a circuit: the maximal trailing block of
measurement operations. -/
def terminalMeasurements (c : Circuit) : List Op :=
  (c.ops.reverse.takeWhile Op.isMeasure).reverse

/-- Modelled from the spec: the mirror transform (§4.6).  Given circuit `C`,
produce `C · barrier · C⁻¹` where `C⁻¹` reverses the operation order and
inverts each operation, with `C`'s terminal measurements removed before
inversion and the same measurements reattached at the end; the result is
tagged as the mirror variant of the input's name. -/
def generate_mirror_circuit (c : Circuit) : Circuit :=
  let body := c.remove_final_measurements.ops
  { name := c.name ++ "_mirrored"
    numQubits := c.numQubits
    ops := body ++ [Op.barrier] ++ body.reverse.map invOp ++ terminalMeasurements c }

/-- No mid-circuit measurement: every measurement is in the terminal block. -/
def noMidMeasurement (c : Circuit) : Prop :=
  ∀ o ∈ c.remove_final_measurements.ops, o.isMeasure = false

instance (c : Circuit) : Decidable (noMidMeasurement c) :=
  inferInstanceAs (Decidable (∀ o ∈ c.remove_final_measurements.ops, o.isMeasure = false))

/-- The number of non-barrier, non-measurement operations of a circuit. -/
def countUnitary (c : Circuit) : Nat := c.ops.countP Op.isUnitary

/-- `invOp` maps barriers to barriers, measurements to measurements and
unitary operations to unitary operations. -/
theorem invOp_isUnitary (o : Op) : (invOp o).isUnitary = o.isUnitary := by
  match o with
  | .barrier => rfl
  | .measure _ _ => rfl
  | .gate n ps qs =>
    simp only [invOp]
    split
    · rfl
    · split
      · rfl
      · split
        · rfl
        · split
          · rfl
          · split
            · rfl
            · split <;> rfl

/-- Every operation in the terminal-measurement block is a measurement. -/
theorem terminalMeasurements_isMeasure (c : Circuit) :
    ∀ o ∈ terminalMeasurements c, o.isMeasure = true := by
  intro o ho
  exact List.mem_takeWhile_imp (List.mem_reverse.mp ho)

/-- C2: for every circuit without mid-circuit measurement, the mirror
transform returns the measurement-stripped body, a barrier, the structural
inverse of the body (reversed order, each operation inverted), and then the
original terminal measurements; consequently the result has exactly twice as
many non-barrier, non-measurement operations as the input. -/
theorem mirror_circuit_structure (c : Circuit) (h : noMidMeasurement c) :
    (generate_mirror_circuit c).ops =
      c.remove_final_measurements.ops ++ [Op.barrier]
        ++ c.remove_final_measurements.ops.reverse.map invOp
        ++ terminalMeasurements c ∧
    countUnitary (generate_mirror_circuit c) = 2 * countUnitary c := by
  refine ⟨rfl, ?_⟩
  have hsplit : c.ops = c.remove_final_measurements.ops ++ terminalMeasurements c := by
    have := List.takeWhile_append_dropWhile (p := Op.isMeasure) (l := c.ops.reverse)
    calc c.ops = c.ops.reverse.reverse := by rw [List.reverse_reverse]
    _ = (c.ops.reverse.takeWhile Op.isMeasure ++ c.ops.reverse.dropWhile Op.isMeasure).reverse := by
        rw [this]
    _ = _ := by
        rw [List.reverse_append]
        rfl
  have hmeas : (terminalMeasurements c).countP Op.isUnitary = 0 := by
    rw [List.countP_eq_zero]
    intro o ho
    have := terminalMeasurements_isMeasure c o ho
    simp [Op.isUnitary, this]
  have hinv : (c.remove_final_measurements.ops.reverse.map invOp).countP Op.isUnitary =
      c.remove_final_measurements.ops.countP Op.isUnitary := by
    rw [List.countP_map]
    have : (Op.isUnitary ∘ invOp) = Op.isUnitary := by
      funext o; exact invOp_isUnitary o
    rw [this, List.countP_reverse]
  have hc : countUnitary c = c.remove_final_measurements.ops.countP Op.isUnitary := by
    unfold countUnitary
    rw [hsplit, List.countP_append, hmeas, Nat.add_zero]
  have hops : (generate_mirror_circuit c).ops =
      c.remove_final_measurements.ops ++ [Op.barrier]
        ++ c.remove_final_measurements.ops.reverse.map invOp
        ++ terminalMeasurements c := rfl
  have hbar : List.countP Op.isUnitary [Op.barrier] = 0 := rfl
  simp only [countUnitary] at hc ⊢
  rw [hops]
  simp only [List.countP_append, hinv, hmeas, hbar, hc]
  omega

/-- C2 witness: the spec's concrete scenario — `H(0); CX(0,1); Measure(0,1)`
mirrors to `H(0); CX(0,1); Barrier; CX(0,1); H(0); Measure(0,1)`, with 4
unitary operations against the original 2. -/
theorem mirror_circuit_structure_witness :
    noMidMeasurement ⟨"ex", 2, [.gate "h" [] [0], .gate "cx" [] [0, 1],
      .measure 0 0, .measure 1 1]⟩ ∧
    countUnitary (generate_mirror_circuit ⟨"ex", 2, [.gate "h" [] [0], .gate "cx" [] [0, 1],
        .measure 0 0, .measure 1 1]⟩) =
      2 * countUnitary ⟨"ex", 2, [.gate "h" [] [0], .gate "cx" [] [0, 1],
        .measure 0 0, .measure 1 1]⟩ ∧
    generate_mirror_circuit ⟨"ex", 2, [.gate "h" [] [0], .gate "cx" [] [0, 1],
        .measure 0 0, .measure 1 1]⟩ =
      ⟨"ex_mirrored", 2, [.gate "h" [] [0], .gate "cx" [] [0, 1], .barrier,
        .gate "cx" [] [0, 1], .gate "h" [] [0], .measure 0 0, .measure 1 1]⟩ :=
  ⟨by decide,
   (mirror_circuit_structure ⟨"ex", 2, [.gate "h" [] [0], .gate "cx" [] [0, 1],
      .measure 0 0, .measure 1 1]⟩ (by decide)).2,
   by decide⟩

/-! ## The IonQ device targets (`targets/devices/ionq.py`) -/

namespace IonQDevice

/-- `qiskit.transpiler.InstructionProperties`: a duration and an error
probability (floats of the source modelled as rationals). -/
structure InstructionProperties where
  duration : ℚ
  error : ℚ
  deriving DecidableEq, Repr

/-- The part of a calibrated IonQ `Target` that `_build_ionq_target`
populates: the qubit count, the description, the per-qubit properties of the
single-qubit gates (`gpi`/`gpi2` share `singleq_props`) and of `measure`, the
chosen entangling gate, and the per-ordered-pair properties of the entangling
gate. -/
structure IonqTarget where
  numQubits : Nat
  description : String
  singleqProps : List (Nat × InstructionProperties)
  measureProps : List (Nat × InstructionProperties)
  twoqGate : String
  twoqProps : List ((Nat × Nat) × InstructionProperties)
  deriving DecidableEq, Repr

/-- `_build_ionq_target`: construct a hardcoded IonQ target using mean
values.  `connectivity = [(i, j) for i in range(n) for j in range(n) if
i != j]`; every pair gets duration `twoq_duration` and error
`1 - twoq_fidelity`.  Raises `ValueError` for an unknown entangling gate. -/
def _build_ionq_target (num_qubits : Nat) (description : String)
    (entangling_gate : String)
    (oneq_duration twoq_duration readout_duration : ℚ)
    (oneq_fidelity twoq_fidelity spam_fidelity : ℚ) :
    Except String IonqTarget :=
  let singleq_props := (List.range num_qubits).map
    (fun q => (q, InstructionProperties.mk oneq_duration (1 - oneq_fidelity)))
  let measure_props := (List.range num_qubits).map
    (fun q => (q, InstructionProperties.mk readout_duration (1 - spam_fidelity)))
  let connectivity := (List.range num_qubits).flatMap
    (fun i => (List.range num_qubits).filterMap
      (fun j => if i ≠ j then some (i, j) else none))
  let twoq_props := connectivity.map
    (fun p => (p, InstructionProperties.mk twoq_duration (1 - twoq_fidelity)))
  if entangling_gate = "MS" then
    .ok ⟨num_qubits, description, singleq_props, measure_props, "ms", twoq_props⟩
  else if entangling_gate = "ZZ" then
    .ok ⟨num_qubits, description, singleq_props, measure_props, "zz", twoq_props⟩
  else
    .error "Unknown entangling gate"

/-- `get_ionq_aria_1_target` (25 qubits, MS entangler, two-qubit duration
600e-6 and fidelity 0.98720). -/
def get_ionq_aria_1_target : Except String IonqTarget :=
  _build_ionq_target 25 "ionq_aria_1" "MS"
    (135 / 1000000) (600 / 1000000) (300 / 1000000)
    (9998 / 10000) (98720 / 100000) (99370 / 100000)

/-- `get_ionq_forte_1_target` (36 qubits, ZZ entangler). -/
def get_ionq_forte_1_target : Except String IonqTarget :=
  _build_ionq_target 36 "ionq_forte_1" "ZZ"
    (130 / 1000000) (970 / 1000000) (150 / 1000000)
    (9998 / 10000) (9932 / 10000) (9959 / 10000)

/-- `get_ionq_target`. -/
def get_ionq_target (device_name : String) : Except String IonqTarget :=
  if device_name = "ionq_aria_1" then get_ionq_aria_1_target
  else if device_name = "ionq_forte_1" then get_ionq_forte_1_target
  else .error "Unknown IonQ device"

/-- C6: whenever `_build_ionq_target` succeeds, its two-qubit entangling
operation is declared on exactly the ordered pairs `(i, j)` with
`i, j < num_qubits` and `i ≠ j`, and every such pair carries
`InstructionProperties` with duration `twoq_duration` and error
`1 - twoq_fidelity`. -/
theorem ionq_target_two_qubit_connectivity (num_qubits : Nat)
    (description entangling_gate : String)
    (d1 d2 dr f1 f2 fs : ℚ) (t : IonqTarget)
    (hok : _build_ionq_target num_qubits description entangling_gate
      d1 d2 dr f1 f2 fs = .ok t) :
    ∀ (i j : Nat) (p : InstructionProperties),
      ((i, j), p) ∈ t.twoqProps ↔
        i < num_qubits ∧ j < num_qubits ∧ i ≠ j ∧
          p = InstructionProperties.mk d2 (1 - f2) := by
  have htwo : t.twoqProps = ((List.range num_qubits).flatMap
      (fun i => (List.range num_qubits).filterMap
        (fun j => if i ≠ j then some (i, j) else none))).map
      (fun p => (p, InstructionProperties.mk d2 (1 - f2))) := by
    unfold _build_ionq_target at hok
    by_cases h1 : entangling_gate = "MS"
    · simp only [h1, if_pos rfl] at hok
      cases hok
      rfl
    · by_cases h2 : entangling_gate = "ZZ"
      · simp only [h1, h2, if_neg, if_pos rfl, ite_true, ite_false] at hok
        cases hok
        rfl
      · simp [h1, h2] at hok
  intro i j p
  rw [htwo]
  simp only [List.mem_map, List.mem_flatMap, List.mem_filterMap, List.mem_range]
  constructor
  · rintro ⟨⟨a, b⟩, ⟨u, hu, v, hv, hvab⟩, heq⟩
    by_cases huv : u ≠ v
    · rw [if_pos huv] at hvab
      cases hvab
      cases heq
      exact ⟨hu, hv, huv, rfl⟩
    · rw [if_neg huv] at hvab
      cases hvab
  · rintro ⟨hi, hj, hij, hp⟩
    exact ⟨(i, j), ⟨i, hi, j, hj, by rw [if_pos hij]⟩, by rw [hp]⟩

/-- C6 witness: the Aria-1 target (two-qubit duration 600e-6, fidelity
0.98720) declares `ms` on the ordered pair (0, 1) with duration 600e-6 and
error 0.0128 ≈ 0.013, and not on the diagonal pair (3, 3). -/
theorem ionq_target_two_qubit_connectivity_witness :
    (∃ t, get_ionq_aria_1_target = .ok t ∧
      (((0, 1), InstructionProperties.mk (600 / 1000000) (128 / 10000)) ∈ t.twoqProps ↔
        0 < 25 ∧ 1 < 25 ∧ 0 ≠ 1 ∧
          InstructionProperties.mk (600 / 1000000) (128 / 10000) =
            InstructionProperties.mk (600 / 1000000) (1 - 98720 / 100000)) ∧
      (((3, 3), InstructionProperties.mk (600 / 1000000) (128 / 10000)) ∈ t.twoqProps ↔
        3 < 25 ∧ 3 < 25 ∧ 3 ≠ 3 ∧
          InstructionProperties.mk (600 / 1000000) (128 / 10000) =
            InstructionProperties.mk (600 / 1000000) (1 - 98720 / 100000))) ∧
    ((1 : ℚ) - 98720 / 100000 = 128 / 10000 ∧
      (12 : ℚ) / 1000 < 128 / 10000 ∧ (128 : ℚ) / 10000 < 14 / 1000) := by
  constructor
  · obtain ⟨t, ht⟩ : ∃ t, get_ionq_aria_1_target = .ok t := ⟨_, rfl⟩
    refine ⟨t, ht, ?_, ?_⟩
    · exact ionq_target_two_qubit_connectivity 25 "ionq_aria_1" "MS" _ _ _ _ _ _ t ht 0 1 _
    · exact ionq_target_two_qubit_connectivity 25 "ionq_aria_1" "MS" _ _ _ _ _ _ t ht 3 3 _
  · refine ⟨by norm_num, by norm_num, by norm_num⟩

end IonQDevice

/-! ## The IonQ custom-gate algebra (`targets/gatesets/ionq.py`)

Matrices are over ℂ in qiskit's little-endian basis convention: for two
qubits the basis index is `2*q1 + q0`.  `eIx x` models `np.exp(1j*x)`.  The
closed-form matrices are transcribed from the gates' `__array__` methods and
the decompositions from their `_define` methods (the matrix of a circuit is
the product of the operation matrices in reverse order of application). -/

namespace IonQGates

open Real

/-- `np.exp(1j*x)` for real `x`. -/
noncomputable def eIx (x : ℝ) : ℂ := Complex.exp (x * Complex.I)

theorem eIx_mul (a b : ℝ) : eIx a * eIx b = eIx (a + b) := by
  unfold eIx; push_cast; rw [add_mul, Complex.exp_add]

theorem eIx_zero : eIx 0 = 1 := by simp [eIx]

theorem eIx_pi_div_two : eIx (π / 2) = Complex.I := by
  unfold eIx
  rw [Complex.exp_mul_I]
  push_cast
  simp

theorem eIx_sub_pi_div_two (a : ℝ) : eIx (a - π / 2) = -Complex.I * eIx a := by
  rw [show (a - π / 2 : ℝ) = -(π / 2) + a by ring, ← eIx_mul]
  have h : eIx (-(π / 2)) = -Complex.I := by
    unfold eIx
    rw [Complex.exp_mul_I]
    push_cast
    simp
  rw [h]

theorem eIx_pi_div_two_sub (a : ℝ) : eIx (π / 2 - a) = Complex.I * eIx (-a) := by
  rw [show (π / 2 - a : ℝ) = π / 2 + -a by ring, ← eIx_mul, eIx_pi_div_two]

theorem eIx_pi_div_two_add (a : ℝ) : eIx (π / 2 + a) = Complex.I * eIx a := by
  rw [← eIx_mul, eIx_pi_div_two]

theorem eIx_sq (a : ℝ) : eIx a ^ 2 = eIx (2 * a) := by
  rw [sq, eIx_mul]; congr 1; ring

theorem sqrt_two_inv : ((√2)⁻¹ : ℝ) = √2 / 2 := by
  have h2 : (√2 : ℝ) ≠ 0 := by positivity
  field_simp

/-- `XGate`. -/
def XGate : Matrix (Fin 2) (Fin 2) ℂ := !![0, 1; 1, 0]

/-- `RZGate(lam)`. -/
noncomputable def RZGate (lam : ℝ) : Matrix (Fin 2) (Fin 2) ℂ :=
  !![eIx (-(lam / 2)), 0; 0, eIx (lam / 2)]

/-- `RXGate(t)`. -/
noncomputable def RXGate (t : ℝ) : Matrix (Fin 2) (Fin 2) ℂ :=
  !![(Real.cos (t / 2) : ℂ), -Complex.I * Real.sin (t / 2);
     -Complex.I * Real.sin (t / 2), (Real.cos (t / 2) : ℂ)]

/-- `CXGate` with control qubit 1 and target qubit 0 (`qc.cx(q[1], q[0])`). -/
def CX10 : Matrix (Fin 4) (Fin 4) ℂ :=
  !![1, 0, 0, 0; 0, 1, 0, 0; 0, 0, 0, 1; 0, 0, 1, 0]

/-- `CXGate` with control qubit 0 and target qubit 1 (`qc.cx(0, 1)`). -/
def CX01 : Matrix (Fin 4) (Fin 4) ℂ :=
  !![1, 0, 0, 0; 0, 0, 0, 1; 0, 0, 1, 0; 0, 1, 0, 0]

/-- `XGate` on qubit 0 of two (`qc.x(q[0])`). -/
def Xq0 : Matrix (Fin 4) (Fin 4) ℂ :=
  !![0, 1, 0, 0; 1, 0, 0, 0; 0, 0, 0, 1; 0, 0, 1, 0]

/-- `RZGate(lam)` on qubit 1 of two (`qc.rz(lam, 1)`). -/
noncomputable def RZq1 (lam : ℝ) : Matrix (Fin 4) (Fin 4) ℂ :=
  !![eIx (-(lam / 2)), 0, 0, 0;
     0, eIx (-(lam / 2)), 0, 0;
     0, 0, eIx (lam / 2), 0;
     0, 0, 0, eIx (lam / 2)]

/-- `CUGate(t, p, l, 0)` with control qubit 0 and target qubit 1
(`qc.cu(t, p, l, 0, control_qubit=q[0], target_qubit=q[1])`; `gamma = 0`). -/
noncomputable def CU01 (t p l : ℝ) : Matrix (Fin 4) (Fin 4) ℂ :=
  !![1, 0, 0, 0;
     0, (Real.cos (t / 2) : ℂ), 0, -(eIx l) * Real.sin (t / 2);
     0, 0, 1, 0;
     0, (eIx p) * Real.sin (t / 2), 0, (eIx (p + l)) * Real.cos (t / 2)]

/-- `GPIGate.__array__`. -/
noncomputable def GPImat (phi : ℝ) : Matrix (Fin 2) (Fin 2) ℂ :=
  !![0, eIx (-(2 * π * phi)); eIx (2 * π * phi), 0]

/-- `GPIGate._define`: `qc.x(0); qc.rz(4 * phi * np.pi, 0)`. -/
noncomputable def GPIdecomp (phi : ℝ) : Matrix (Fin 2) (Fin 2) ℂ :=
  RZGate (4 * phi * π) * XGate

/-- `GPI2Gate.__array__` (`1/np.sqrt(2)` prefactor). -/
noncomputable def GPI2mat (phi : ℝ) : Matrix (Fin 2) (Fin 2) ℂ :=
  ((Real.sqrt 2 : ℂ))⁻¹ •
    !![1, -Complex.I * eIx (-(phi * 2 * π)); -Complex.I * eIx (phi * 2 * π), 1]

/-- `GPI2Gate._define`: `rz(-2*phi*pi); rx(pi/2); rz(2*phi*pi)`. -/
noncomputable def GPI2decomp (phi : ℝ) : Matrix (Fin 2) (Fin 2) ℂ :=
  RZGate (2 * phi * π) * (RXGate (π / 2) * RZGate (-(2 * phi * π)))

/-- `MSGate.__array__`. -/
noncomputable def MSmat (phi0 phi1 theta : ℝ) : Matrix (Fin 4) (Fin 4) ℂ :=
  !![(Real.cos (π * theta) : ℂ), 0, 0,
       (Real.sin (π * theta) : ℂ) * -Complex.I * eIx (-(2 * π * (phi0 + phi1)));
     0, (Real.cos (π * theta) : ℂ),
       (Real.sin (π * theta) : ℂ) * -Complex.I * eIx (2 * π * (phi0 - phi1)), 0;
     0, (Real.sin (π * theta) : ℂ) * -Complex.I * eIx (-(2 * π * (phi0 - phi1))),
       (Real.cos (π * theta) : ℂ), 0;
     (Real.sin (π * theta) : ℂ) * -Complex.I * eIx (2 * π * (phi0 + phi1)), 0, 0,
       (Real.cos (π * theta) : ℂ)]

/-- `MSGate._define`: `cx(q1,q0); x(q0); cu(2*theta*pi, 2*alpha*pi - pi/2,
pi/2 - 2*alpha*pi, 0, q0, q1); x(q0); cu(2*theta*pi, -2*beta*pi - pi/2,
pi/2 + 2*beta*pi, 0, q0, q1); cx(q1,q0)` with `alpha = phi0 + phi1` and
`beta = phi0 - phi1`. -/
noncomputable def MSdecomp (phi0 phi1 theta : ℝ) : Matrix (Fin 4) (Fin 4) ℂ :=
  let alpha := phi0 + phi1
  let beta := phi0 - phi1
  CX10 * (CU01 (2 * theta * π) (-(2 * beta * π) - π / 2) (π / 2 + 2 * beta * π) *
    (Xq0 * (CU01 (2 * theta * π) (2 * alpha * π - π / 2) (π / 2 - 2 * alpha * π) *
      (Xq0 * CX10))))

/-- `ZZGate.__array__` (`itheta2 = 1j * theta * pi`). -/
noncomputable def ZZmat (theta : ℝ) : Matrix (Fin 4) (Fin 4) ℂ :=
  !![eIx (-(theta * π)), 0, 0, 0;
     0, eIx (theta * π), 0, 0;
     0, 0, eIx (theta * π), 0;
     0, 0, 0, eIx (-(theta * π))]

/-- `ZZGate._define`: `cx(0,1); rz(2*pi*theta, 1); cx(0,1)`. -/
noncomputable def ZZdecomp (theta : ℝ) : Matrix (Fin 4) (Fin 4) ℂ :=
  CX01 * (RZq1 (2 * π * theta) * CX01)

theorem cos2C (theta : ℝ) :
    Complex.cos (2 * (theta : ℂ) * ((π : ℝ) : ℂ) / 2) = Complex.cos (((π : ℝ) : ℂ) * theta) := by
  congr 1; ring

theorem sin2C (theta : ℝ) :
    Complex.sin (2 * (theta : ℂ) * ((π : ℝ) : ℂ) / 2) = Complex.sin (((π : ℝ) : ℂ) * theta) := by
  congr 1; ring

theorem gpi_decomp_eq (phi : ℝ) : GPIdecomp phi = GPImat phi := by
  ext i j
  fin_cases i <;> fin_cases j <;>
    simp [GPIdecomp, GPImat, RZGate, XGate, Matrix.mul_apply, Fin.sum_univ_two] <;>
    · congr 1
      ring

theorem cosC : Complex.cos (((π : ℝ) : ℂ) / 2 / 2) = ((√2 : ℝ) : ℂ)⁻¹ := by
  have h : ((((π : ℝ) : ℂ)) / 2 / 2) = ((π / 4 : ℝ) : ℂ) := by push_cast; ring
  rw [h, ← Complex.ofReal_cos, Real.cos_pi_div_four, ← sqrt_two_inv, Complex.ofReal_inv]

theorem sinC : Complex.sin (((π : ℝ) : ℂ) / 2 / 2) = ((√2 : ℝ) : ℂ)⁻¹ := by
  have h : ((((π : ℝ) : ℂ)) / 2 / 2) = ((π / 4 : ℝ) : ℂ) := by push_cast; ring
  rw [h, ← Complex.ofReal_sin, Real.sin_pi_div_four, ← sqrt_two_inv, Complex.ofReal_inv]

theorem gpi2_decomp_eq (phi : ℝ) : GPI2decomp phi = GPI2mat phi := by
  ext i j
  fin_cases i <;> fin_cases j
  · simp [GPI2decomp, GPI2mat, RZGate, RXGate, Matrix.mul_apply, Fin.sum_univ_two,
      cosC, sinC, eIx_mul]
    ring_nf
    rw [mul_right_comm, eIx_mul]
    simp [eIx_zero]
  · simp [GPI2decomp, GPI2mat, RZGate, RXGate, Matrix.mul_apply, Fin.sum_univ_two,
      cosC, sinC, eIx_mul]
    ring_nf
    rw [eIx_sq, show (2 * -(phi * π) : ℝ) = -(phi * π * 2) by ring]
    ring
  · simp [GPI2decomp, GPI2mat, RZGate, RXGate, Matrix.mul_apply, Fin.sum_univ_two,
      cosC, sinC, eIx_mul]
    ring_nf
    rw [eIx_sq, show (2 * (phi * π) : ℝ) = phi * π * 2 by ring]
    ring
  · simp [GPI2decomp, GPI2mat, RZGate, RXGate, Matrix.mul_apply, Fin.sum_univ_two,
      cosC, sinC, eIx_mul]
    ring_nf
    rw [mul_right_comm, eIx_mul]
    simp [eIx_zero]

set_option maxHeartbeats 1600000 in
theorem ms_decomp_eq (phi0 phi1 theta : ℝ) :
    MSdecomp phi0 phi1 theta = MSmat phi0 phi1 theta := by
  ext i j
  fin_cases i <;> fin_cases j <;>
    simp [MSdecomp, MSmat, CX10, Xq0, CU01, Matrix.mul_apply, Fin.sum_univ_four, eIx_mul,
      cos2C, sin2C, eIx_pi_div_two_sub, eIx_pi_div_two_add, eIx_sub_pi_div_two, eIx_zero] <;>
    ring_nf <;>
    simp [eIx_zero]

theorem zz_decomp_eq (theta : ℝ) : ZZdecomp theta = ZZmat theta := by
  ext i j
  fin_cases i <;> fin_cases j <;>
    simp [ZZdecomp, ZZmat, RZq1, CX01, Matrix.mul_apply, Fin.sum_univ_four] <;>
    (congr 1 <;> ring)

/-- C3: for every custom gate (GPI, GPI2, MS, ZZ) and all real parameter
values, the unitary obtained by composing the operations emitted by its
decomposition (`_define`) equals the gate's closed-form matrix (`__array__`)
up to a global phase — here with phase exactly 1. -/
theorem custom_gate_decompositions_match_matrices (phi phi0 phi1 theta : ℝ) :
    (∃ c : ℂ, Complex.abs c = 1 ∧ GPIdecomp phi = c • GPImat phi) ∧
    (∃ c : ℂ, Complex.abs c = 1 ∧ GPI2decomp phi = c • GPI2mat phi) ∧
    (∃ c : ℂ, Complex.abs c = 1 ∧ MSdecomp phi0 phi1 theta = c • MSmat phi0 phi1 theta) ∧
    (∃ c : ℂ, Complex.abs c = 1 ∧ ZZdecomp theta = c • ZZmat theta) :=
  ⟨⟨1, by simp, by rw [one_smul]; exact gpi_decomp_eq phi⟩,
   ⟨1, by simp, by rw [one_smul]; exact gpi2_decomp_eq phi⟩,
   ⟨1, by simp, by rw [one_smul]; exact ms_decomp_eq phi0 phi1 theta⟩,
   ⟨1, by simp, by rw [one_smul]; exact zz_decomp_eq theta⟩⟩

end IonQGates

end MQTBench
